import Mathlib

/-!
Formal model of the trauso download-manager core (src-tauri).

Embedding conventions:
- Rust machine integers (u64, i32) are modeled as Nat resp. Int; where the
  source parses a string into a u64, the parse rejects values of 2^64 or more,
  as Rust u64 parsing does.
- The f64 progress computation of get_download_info is modeled over ℚ
  (exact arithmetic in place of IEEE doubles).
- Effectful operations (RPC calls, process spawn/kill) are modeled by explicit
  environment records holding the outcome of each external interaction, and
  the supervisor state (process handle, limits, daemon reachability) is
  passed explicitly.  A ghost field counts spawn events.
- The file aria2/types.rs of the repository is not available; the record
  types below are modeled from the spec section 3 and from how api.rs
  accesses their fields.
-/

/-- Modelled from the spec: the caller-facing status enum of section 3
(types.rs is not available).  The six daemon status strings map to the six
named constructors; anything else maps to Unknown. -/
inductive DownloadStatus where
  | Active
  | Waiting
  | Paused
  | Error
  | Complete
  | Removed
  | Unknown
deriving DecidableEq

/-- Modelled from the spec: a file descriptor of a status record, holding
a path (spec section 3; types.rs is not available). -/
structure Aria2File where
  path : String
deriving DecidableEq

/-- Modelled from the spec: the raw daemon status record of section 3
(types.rs is not available; field optionality follows the accesses in
api.rs get_download_info: the three counters and the file list are
optional, gid and status are plain strings). -/
structure Aria2Status where
  gid : String
  total_length : Option String
  completed_length : Option String
  download_speed : Option String
  status : String
  error_message : Option String
  files : Option (List Aria2File)
deriving DecidableEq

/-- The caller-facing normalized record built by get_download_info
(api.rs lines 221-230); progress is the f64 field modeled over ℚ. -/
structure DownloadInfo where
  gid : String
  filename : String
  total_size : Nat
  downloaded : Nat
  speed : Nat
  progress : ℚ
  status : DownloadStatus
  error_message : Option String
deriving DecidableEq

/-- DownloadStatus.from on the status string: the six documented daemon
strings, everything else Unknown (modelled from the spec, section 3). -/
def DownloadStatus.ofString (s : String) : DownloadStatus :=
  match s with
  | "active" => .Active
  | "waiting" => .Waiting
  | "paused" => .Paused
  | "error" => .Error
  | "complete" => .Complete
  | "removed" => .Removed
  | _ => .Unknown

/-- Rust u64 string parsing (str.parse::<u64>()): an optional leading plus
sign, then one or more ASCII digits, value below 2^64; anything else fails.
Models the (s.parse().ok()) calls of api.rs lines 195-203. -/
def parseU64 (s : String) : Option Nat :=
  let cs :=
    match s.data with
    | '+' :: rest => rest
    | cs => cs
  if cs.isEmpty then none
  else if cs.all Char.isDigit then
    let v := cs.foldl (fun a c => a * 10 + (c.toNat - '0'.toNat)) 0
    if v < 2 ^ 64 then some v else none
  else none

/-- total_size as computed at api.rs lines 195-197: parse the optional
string counter, defaulting to 0 when absent or unparsable. -/
def parsedTotal (st : Aria2Status) : Nat :=
  (st.total_length.bind parseU64).getD 0

/-- downloaded as computed at api.rs lines 198-200. -/
def parsedDownloaded (st : Aria2Status) : Nat :=
  (st.completed_length.bind parseU64).getD 0

/-- speed as computed at api.rs lines 201-203. -/
def parsedSpeed (st : Aria2Status) : Nat :=
  (st.download_speed.bind parseU64).getD 0

/-- PathBuf::file_name modeled for slash-separated paths: the last real
path component, none for an empty path or one ending in a parent
reference (api.rs lines 214-217). -/
def pathFileName (p : String) : Option String :=
  let comps := (p.splitOn "/").filter (fun c => c ≠ "" && c ≠ ".")
  match comps.getLast? with
  | some c => if c = ".." then none else some c
  | none => none

/-- Filename derivation of api.rs lines 211-219: basename of the first
file path, the raw path when the basename is undefined, and the sentinel
"unknown" when there is no file entry. -/
def deriveFilename (files : Option (List Aria2File)) : String :=
  match files.bind List.head? with
  | some f => (pathFileName f.path).getD f.path
  | none => "unknown"

/-- The pure translation performed by get_download_info after a successful
tellStatus call (api.rs lines 192-231): parse the three counters with
default 0, derive progress and filename, map the status string. -/
def statusToInfo (st : Aria2Status) : DownloadInfo :=
  let total_size := parsedTotal st
  let downloaded := parsedDownloaded st
  let progress : ℚ :=
    if total_size > 0 then ((downloaded : ℚ) / (total_size : ℚ)) * 100 else 0
  { gid := st.gid
    filename := deriveFilename st.files
    total_size := total_size
    downloaded := downloaded
    speed := parsedSpeed st
    progress := progress
    status := DownloadStatus.ofString st.status
    error_message := st.error_message }

/-- Modelled from the spec: the error half of the RPC response envelope
(section 3; types.rs is not available): an integer code and a message. -/
structure Aria2RpcError where
  code : Int
  message : String
deriving DecidableEq

/-- Modelled from the spec: the generic RPC response envelope (section 3;
types.rs is not available): optional result and optional error, as
consumed by call at api.rs lines 160-170. -/
structure Aria2RpcResponse (T : Type) where
  result : Option T
  error : Option Aria2RpcError

/-- The error string built at api.rs line 166 for a daemon-reported
error. -/
def rpcErrorString (e : Aria2RpcError) : String :=
  "aria2 error: " ++ e.message ++ " (code: " ++ toString e.code ++ ")"

/-- Envelope handling of call (api.rs lines 165-169): a present error
field wins and is surfaced as a formatted error string; otherwise a
present result is returned; otherwise the fixed empty-response error. -/
def handleRpcResponse {T : Type} (r : Aria2RpcResponse T) : Except String T :=
  match r.error with
  | some e => Except.error (rpcErrorString e)
  | none =>
    match r.result with
    | some v => Except.ok v
    | none => Except.error "Empty response from aria2"

/-- Snapshot of the daemon responses to the query RPCs used by the queue
aggregator: the three queue listings and the per-gid tellStatus call.
Each field holds the outcome the daemon would give for that call. -/
structure QueryEnv where
  tellActive : Except String (List Aria2Status)
  tellWaiting : Int → Int → Except String (List Aria2Status)
  tellStopped : Int → Int → Except String (List Aria2Status)
  tellStatus : String → Except String Aria2Status

/-- get_status (api.rs lines 188-190): a single tellStatus RPC. -/
def get_status (env : QueryEnv) (gid : String) : Except String Aria2Status :=
  env.tellStatus gid

/-- get_download_info (api.rs lines 192-231): propagate a tellStatus
failure, otherwise apply the pure translation. -/
def get_download_info (env : QueryEnv) (gid : String) : Except String DownloadInfo :=
  match get_status env gid with
  | Except.error e => Except.error e
  | Except.ok st => Except.ok (statusToInfo st)

/-- One queue loop of get_all_downloads (api.rs lines 307-313 and the two
analogous loops): translate each entry, keeping successes in order and
skipping entries whose translation fails. -/
def collectInfos (env : QueryEnv) : List Aria2Status → List DownloadInfo
  | [] => []
  | st :: rest =>
    match get_download_info env st.gid with
    | Except.ok info => info :: collectInfos env rest
    | Except.error _ => collectInfos env rest

/-- The contribution of one queue fetch in get_all_downloads: a failed
fetch contributes no items (the if-let-Ok pattern of api.rs lines 307,
315, 323). -/
def queueItems (env : QueryEnv) (q : Except String (List Aria2Status)) :
    List DownloadInfo :=
  match q with
  | Except.ok l => collectInfos env l
  | Except.error _ => []

/-- get_all_downloads (api.rs lines 304-332): active queue, then waiting
with offset 0 and limit 100, then stopped with the same bound, appended
in that order; always returns Ok. -/
def get_all_downloads (env : QueryEnv) : Except String (List DownloadInfo) :=
  Except.ok (queueItems env env.tellActive
    ++ queueItems env (env.tellWaiting 0 100)
    ++ queueItems env (env.tellStopped 0 100))

/-- Supervisor-plus-world state: whether the daemon is reachable over the
transport (the source of truth behind is_running), the tracked child
process handle and the two limit fields of Aria2Client (api.rs lines
11-17), plus ghost instrumentation: a count of spawn events and the limit
arguments used at the last spawn (api.rs lines 82-97). -/
structure ClientState where
  reachable : Bool
  process : Option Nat
  overall : Nat
  perDownload : Nat
  spawns : Nat
  lastSpawnArgs : Option (Nat × Nat)
deriving DecidableEq

/-- Outcomes of the external interactions a supervisor operation may
perform: path probing (api.rs lines 52-73), process spawn (line 115),
the readiness polls within the 5 second window (lines 120-126), kill and
wait (lines 133-134) and the graceful shutdown RPC (line 137). -/
structure DaemonEnv where
  aria2Path : Option String
  spawnResult : Except String Nat
  polls : List Bool
  killResult : Except String Unit
  waitResult : Except String Unit
  shutdownResult : Except String String

/-- is_running (api.rs lines 141-143): purely transport reachability. -/
def is_running (s : ClientState) : Bool :=
  s.reachable

/-- Aria2Client::set_bandwidth_limit (api.rs lines 41-44): store both
limit fields. -/
def set_bandwidth_limit (no np : Nat) (s : ClientState) : ClientState :=
  { s with overall := no, perDownload := np }

/-- Aria2Client::get_bandwidth_limit (api.rs lines 46-50). -/
def get_bandwidth_limit (s : ClientState) : Nat × Nat :=
  (s.overall, s.perDownload)

/-- start_daemon (api.rs lines 75-129): return Ok at once when already
reachable; otherwise resolve the path, spawn (recording the handle and,
as ghost data, the spawn event and the limit arguments), then poll for
reachability; a poll success is Ok, exhausting the window is the timeout
error with the spawned process left tracked. -/
def start_daemon (env : DaemonEnv) (s : ClientState) :
    Except String Unit × ClientState :=
  if is_running s then (Except.ok (), s)
  else
    match env.aria2Path with
    | none => (Except.error "aria2c not found", s)
    | some _ =>
      match env.spawnResult with
      | Except.error e => (Except.error ("Failed to start aria2c: " ++ e), s)
      | Except.ok child =>
        let s1 := { s with process := some child, spawns := s.spawns + 1,
                           lastSpawnArgs := some (s.overall, s.perDownload) }
        if env.polls.any id then (Except.ok (), { s1 with reachable := true })
        else (Except.error "aria2c failed to start within timeout", s1)

/-- stop_daemon (api.rs lines 131-139): take and kill the tracked child
if any, ignoring kill and wait outcomes, then issue the best-effort
shutdown RPC ignoring its outcome; always Ok, daemon no longer
reachable afterwards. -/
def stop_daemon (env : DaemonEnv) (s : ClientState) :
    Except String Unit × ClientState :=
  let s1 :=
    match s.process with
    | some _ =>
      match env.killResult, env.waitResult with
      | _, _ => { s with process := none }
    | none => s
  match env.shutdownResult with
  | _ => (Except.ok (), { s1 with reachable := false })

/-- The tauri command set_bandwidth_limit (lib.rs lines 127-155),
renamed to avoid clashing with the client method: the running check, the
conditional stop, the unconditional limit mutation, the settings save
(its outcome passed in as saveResult), and the conditional restart.  The
exclusive client guard is acquired separately for the check block, the
stop block, and the mutate-save-restart block. -/
def setLimitsCommand (env : DaemonEnv) (saveResult : Except String Unit)
    (no np : Nat) (s : ClientState) : Except String Unit × ClientState :=
  let was := is_running s
  let (r, s1) := if was then stop_daemon env s else (Except.ok (), s)
  match r with
  | Except.error e => (Except.error e, s1)
  | Except.ok _ =>
    let s2 := set_bandwidth_limit no np s1
    match saveResult with
    | Except.error e => (Except.error e, s2)
    | Except.ok _ =>
      if was then start_daemon env s2 else (Except.ok (), s2)

/-- The states at which the exclusive guard is released during
setLimitsCommand (after the check block of lib.rs lines 132-135 and
after the stop block of lines 137-140): the states a concurrently
scheduled daemon-affecting caller can observe mid-sequence. -/
def setLimitsGapStates (env : DaemonEnv) (s : ClientState) : List ClientState :=
  [s, if is_running s then (stop_daemon env s).2 else s]

/-- A download-history entry (settings/types.rs lines 44-53). -/
structure DownloadHistoryItem where
  id : String
  filename : String
  url : String
  size : Nat
  status : String
  downloaded_at : String
  path : String
deriving DecidableEq

/-- The download history (settings/types.rs lines 55-58). -/
structure DownloadHistory where
  items : List DownloadHistoryItem
deriving DecidableEq

/-- The pure core of add_history_item (settings/api.rs lines 83-92),
with the loaded history passed in and the saved history returned:
insert at index 0, then truncate to 100 entries when over the cap. -/
def add_history_item (history : DownloadHistory) (item : DownloadHistoryItem) :
    DownloadHistory :=
  let items := item :: history.items
  let items2 := if items.length > 100 then items.take 100 else items
  { items := items2 }

/-- Sample status record whose counters are unparsable or absent. -/
def sampleBadStatus : Aria2Status :=
  { gid := "bad", total_length := some "abc", completed_length := none,
    download_speed := some "", status := "active", error_message := none,
    files := none }

/-- Sample well-formed active status record. -/
def sampleStatusA : Aria2Status :=
  { gid := "a", total_length := some "4", completed_length := some "1",
    download_speed := some "3", status := "active", error_message := none,
    files := some [{ path := "downloads/file.bin" }] }

/-- Sample record with a zero total. -/
def sampleStatusZero : Aria2Status :=
  { gid := "z", total_length := some "0", completed_length := some "7",
    download_speed := none, status := "complete", error_message := none,
    files := none }

/-- Sample record whose gid the daemon does not know. -/
def sampleStatusX : Aria2Status :=
  { gid := "x", total_length := none, completed_length := none,
    download_speed := none, status := "waiting", error_message := none,
    files := none }

/-- Sample record reporting more bytes downloaded than the total. -/
def cexStatus : Aria2Status :=
  { gid := "over", total_length := some "1", completed_length := some "2",
    download_speed := none, status := "active", error_message := none,
    files := none }

/-- Sample daemon-response snapshot: the active-queue fetch fails, the
waiting queue holds one good and one unknown gid, the stopped queue one
zero-total record; tellStatus knows gids a, z and bad. -/
def sampleQueryEnv : QueryEnv :=
  { tellActive := Except.error "boom"
    tellWaiting := fun _ _ => Except.ok [sampleStatusA, sampleStatusX]
    tellStopped := fun _ _ => Except.ok [sampleStatusZero]
    tellStatus := fun g =>
      if g = "a" then Except.ok sampleStatusA
      else if g = "z" then Except.ok sampleStatusZero
      else if g = "bad" then Except.ok sampleBadStatus
      else Except.error "unknown gid" }

/-- Supervisor environment in which every external interaction succeeds. -/
def happyEnv : DaemonEnv :=
  { aria2Path := some "aria2c", spawnResult := Except.ok 2, polls := [true],
    killResult := Except.ok (), waitResult := Except.ok (),
    shutdownResult := Except.ok "OK" }

/-- A state with a reachable daemon and a tracked handle, old limits 0/0. -/
def runningState : ClientState :=
  { reachable := true, process := some 1, overall := 0, perDownload := 0,
    spawns := 1, lastSpawnArgs := some (0, 0) }

/-- A state with no daemon running and no tracked handle. -/
def stoppedState : ClientState :=
  { reachable := false, process := none, overall := 3, perDownload := 4,
    spawns := 0, lastSpawnArgs := none }

/-- A sample envelope in which the daemon filled both fields. -/
def sampleRpcResponse : Aria2RpcResponse Nat :=
  { result := some 42, error := some { code := 1, message := "unauthorized" } }

lemma statusToInfo_total_size (st : Aria2Status) :
    (statusToInfo st).total_size = parsedTotal st := rfl

lemma statusToInfo_downloaded (st : Aria2Status) :
    (statusToInfo st).downloaded = parsedDownloaded st := rfl

lemma statusToInfo_speed (st : Aria2Status) :
    (statusToInfo st).speed = parsedSpeed st := rfl

lemma statusToInfo_progress_pos (st : Aria2Status) (h : 0 < parsedTotal st) :
    (statusToInfo st).progress =
      ((parsedDownloaded st : ℚ) / (parsedTotal st : ℚ)) * 100 := by
  simp [statusToInfo, h]

lemma statusToInfo_progress_zero (st : Aria2Status) (h : parsedTotal st = 0) :
    (statusToInfo st).progress = 0 := by
  simp [statusToInfo, h]

lemma rpcErrorString_ne_empty (e : Aria2RpcError) :
    rpcErrorString e ≠ "Empty response from aria2" := by
  unfold rpcErrorString
  intro h
  have hd := congrArg String.data h
  simp [String.data_append] at hd

lemma collectInfos_eq_filterMap (env : QueryEnv) (l : List Aria2Status) :
    collectInfos env l =
      l.filterMap (fun st => (get_download_info env st.gid).toOption) := by
  induction l with
  | nil => simp [collectInfos]
  | cons st rest ih =>
    cases h : get_download_info env st.gid with
    | ok info => simp [collectInfos, h, ih, Except.toOption]
    | error e => simp [collectInfos, h, ih, Except.toOption]

/-- C5: the translated progress equals downloaded over total times 100
when the parsed total is positive, and is exactly 0 when the parsed
total is 0, whatever downloaded is. -/
theorem progress_formula (st : Aria2Status) :
    (statusToInfo st).total_size = parsedTotal st
    ∧ (statusToInfo st).downloaded = parsedDownloaded st
    ∧ (0 < parsedTotal st →
        (statusToInfo st).progress =
          ((parsedDownloaded st : ℚ) / (parsedTotal st : ℚ)) * 100)
    ∧ (parsedTotal st = 0 → (statusToInfo st).progress = 0) :=
  ⟨rfl, rfl, fun h => statusToInfo_progress_pos st h,
    fun h => statusToInfo_progress_zero st h⟩

theorem progress_formula_witness :
    (statusToInfo sampleStatusA).progress =
      ((parsedDownloaded sampleStatusA : ℚ) / (parsedTotal sampleStatusA : ℚ)) * 100
    ∧ (statusToInfo sampleStatusZero).progress = 0 :=
  ⟨(progress_formula sampleStatusA).2.2.1 (by decide),
   (progress_formula sampleStatusZero).2.2.2 (by decide)⟩

/-- C2 counterexample: a status record with parsed total 1 and parsed
downloaded 2 has progress 200, outside the claimed 0 to 100 range. -/
theorem progress_bound_cex :
    ¬ (∀ st : Aria2Status, 0 < (statusToInfo st).total_size →
        0 ≤ (statusToInfo st).progress ∧ (statusToInfo st).progress ≤ 100) := by
  intro h
  have h1 : parsedTotal cexStatus = 1 := by decide
  have h2 : parsedDownloaded cexStatus = 2 := by decide
  have hp : (statusToInfo cexStatus).progress = 200 := by
    rw [statusToInfo_progress_pos cexStatus (by decide), h1, h2]
    norm_num
  have hb := (h cexStatus (by decide)).2
  rw [hp] at hb
  norm_num at hb

/-- C2 amended: for records whose parsed downloaded does not exceed the
positive parsed total, progress lies within 0 and 100. -/
theorem progress_bound_of_le (st : Aria2Status)
    (hpos : 0 < parsedTotal st) (hle : parsedDownloaded st ≤ parsedTotal st) :
    0 ≤ (statusToInfo st).progress ∧ (statusToInfo st).progress ≤ 100 := by
  have htq : (0 : ℚ) < (parsedTotal st : ℚ) := by exact_mod_cast hpos
  have hdq : ((parsedDownloaded st : ℚ)) ≤ (parsedTotal st : ℚ) := by
    exact_mod_cast hle
  rw [statusToInfo_progress_pos st hpos]
  constructor
  · positivity
  · calc ((parsedDownloaded st : ℚ) / (parsedTotal st : ℚ)) * 100
        ≤ 1 * 100 :=
          mul_le_mul_of_nonneg_right ((div_le_one htq).mpr hdq) (by norm_num)
      _ = 100 := by norm_num

theorem progress_bound_of_le_witness :
    0 ≤ (statusToInfo sampleStatusA).progress
    ∧ (statusToInfo sampleStatusA).progress ≤ 100 :=
  progress_bound_of_le sampleStatusA (by decide) (by decide)

/-- C8: a counter that is absent or fails numeric parsing yields 0 in the
corresponding DownloadInfo field, and the translation of a successfully
fetched record always succeeds. -/
theorem parse_failure_defaults (st : Aria2Status) :
    (∀ s, st.total_length = some s → parseU64 s = none →
      (statusToInfo st).total_size = 0)
    ∧ (st.total_length = none → (statusToInfo st).total_size = 0)
    ∧ (∀ s, st.completed_length = some s → parseU64 s = none →
      (statusToInfo st).downloaded = 0)
    ∧ (st.completed_length = none → (statusToInfo st).downloaded = 0)
    ∧ (∀ s, st.download_speed = some s → parseU64 s = none →
      (statusToInfo st).speed = 0)
    ∧ (st.download_speed = none → (statusToInfo st).speed = 0)
    ∧ (∀ env gid, get_status env gid = Except.ok st →
        get_download_info env gid = Except.ok (statusToInfo st)) := by
  refine ⟨?_, ?_, ?_, ?_, ?_, ?_, ?_⟩
  · intro s hs hp
    simp [statusToInfo_total_size, parsedTotal, hs, hp]
  · intro hs
    simp [statusToInfo_total_size, parsedTotal, hs]
  · intro s hs hp
    simp [statusToInfo_downloaded, parsedDownloaded, hs, hp]
  · intro hs
    simp [statusToInfo_downloaded, parsedDownloaded, hs]
  · intro s hs hp
    simp [statusToInfo_speed, parsedSpeed, hs, hp]
  · intro hs
    simp [statusToInfo_speed, parsedSpeed, hs]
  · intro env gid h
    simp [get_download_info, h]

theorem parse_failure_defaults_witness :
    (statusToInfo sampleBadStatus).total_size = 0
    ∧ (statusToInfo sampleBadStatus).downloaded = 0
    ∧ (statusToInfo sampleBadStatus).speed = 0
    ∧ get_download_info sampleQueryEnv "bad" =
        Except.ok (statusToInfo sampleBadStatus) := by
  obtain ⟨h1, _, _, h4, h5, _, h7⟩ := parse_failure_defaults sampleBadStatus
  exact ⟨h1 "abc" rfl (by decide), h4 rfl, h5 "" rfl (by decide),
    h7 sampleQueryEnv "bad" rfl⟩

/-- C4: the aggregator always returns Ok; it is the append of the three
queue contributions in active, waiting, stopped order with the fixed
offset 0 and bound 100; a failed queue fetch contributes nothing; each
queue keeps exactly the entries whose translation succeeds, in order,
and an entry whose translation fails is skipped. -/
theorem get_all_downloads_spec (env : QueryEnv) :
    (∃ l, get_all_downloads env = Except.ok l)
    ∧ get_all_downloads env = Except.ok (queueItems env env.tellActive
        ++ queueItems env (env.tellWaiting 0 100)
        ++ queueItems env (env.tellStopped 0 100))
    ∧ (∀ e, queueItems env (Except.error e) = [])
    ∧ (∀ l, collectInfos env l =
        l.filterMap (fun st => (get_download_info env st.gid).toOption))
    ∧ (∀ (l1 l2 : List Aria2Status) (st : Aria2Status) (e : String),
        get_download_info env st.gid = Except.error e →
        collectInfos env (l1 ++ st :: l2) = collectInfos env (l1 ++ l2)) := by
  refine ⟨⟨_, rfl⟩, rfl, fun e => rfl, collectInfos_eq_filterMap env, ?_⟩
  intro l1 l2 st e he
  have hnone : (get_download_info env st.gid).toOption = none := by
    simp [he, Except.toOption]
  rw [collectInfos_eq_filterMap, collectInfos_eq_filterMap]
  simp [List.filterMap_append, hnone]

theorem get_all_downloads_spec_witness :
    (∃ l, get_all_downloads sampleQueryEnv = Except.ok l)
    ∧ queueItems sampleQueryEnv (Except.error "boom") = []
    ∧ collectInfos sampleQueryEnv [sampleStatusX] = [] := by
  obtain ⟨h1, _, h3, _, h5⟩ := get_all_downloads_spec sampleQueryEnv
  refine ⟨h1, h3 "boom", ?_⟩
  have hx := h5 [] [] sampleStatusX "unknown gid" rfl
  simpa [collectInfos] using hx

/-- C9: when the envelope carries both a result and an error, the call
primitive surfaces the error of the daemon and never the result, and the
fixed empty-response error arises exactly when both fields are absent. -/
theorem call_error_precedence {T : Type} (r : Aria2RpcResponse T)
    (e : Aria2RpcError) (herr : r.error = some e) :
    handleRpcResponse r = Except.error (rpcErrorString e)
    ∧ (∀ v : T, handleRpcResponse r ≠ Except.ok v)
    ∧ rpcErrorString e ≠ "Empty response from aria2"
    ∧ (∀ r2 : Aria2RpcResponse T,
        handleRpcResponse r2 = Except.error "Empty response from aria2" ↔
          r2.error = none ∧ r2.result = none) := by
  have hmain : handleRpcResponse r = Except.error (rpcErrorString e) := by
    simp [handleRpcResponse, herr]
  refine ⟨hmain, ?_, rpcErrorString_ne_empty e, ?_⟩
  · intro v hv
    rw [hmain] at hv
    exact Except.noConfusion hv
  · intro r2
    cases h2 : r2.error with
    | some e2 => simp [handleRpcResponse, h2, rpcErrorString_ne_empty e2]
    | none =>
      cases h3 : r2.result with
      | some v => simp [handleRpcResponse, h2, h3]
      | none => simp [handleRpcResponse, h2, h3]

theorem call_error_precedence_witness :
    handleRpcResponse sampleRpcResponse =
      Except.error (rpcErrorString { code := 1, message := "unauthorized" })
    ∧ handleRpcResponse sampleRpcResponse ≠ Except.ok 42 := by
  obtain ⟨h1, h2, _, _⟩ :=
    call_error_precedence sampleRpcResponse { code := 1, message := "unauthorized" } rfl
  exact ⟨h1, h2 42⟩

/-- C6: when the daemon is already reachable, start_daemon returns
success at once with the state unchanged: no spawn, the tracked handle
untouched. -/
theorem start_daemon_idempotent (env : DaemonEnv) (s : ClientState)
    (h : is_running s = true) :
    start_daemon env s = (Except.ok (), s) := by
  simp [start_daemon, h]

theorem start_daemon_idempotent_witness :
    start_daemon happyEnv runningState = (Except.ok (), runningState) :=
  start_daemon_idempotent happyEnv runningState rfl

/-- C7: stop_daemon returns success from every prior state and for every
outcome of kill, wait and the graceful shutdown RPC; afterwards no handle
is tracked and the daemon is down; it is idempotent; and on a
never-started state it only reasserts that state. -/
theorem stop_daemon_spec (env : DaemonEnv) (s : ClientState) :
    (stop_daemon env s).1 = Except.ok ()
    ∧ (stop_daemon env s).2.process = none
    ∧ (stop_daemon env s).2.reachable = false
    ∧ stop_daemon env (stop_daemon env s).2 = (Except.ok (), (stop_daemon env s).2)
    ∧ stop_daemon env { s with process := none, reachable := false } =
        (Except.ok (), { s with process := none, reachable := false }) := by
  obtain ⟨reach, proc, ov, pd, sp, la⟩ := s
  cases proc <;> simp [stop_daemon]

/-- C3: under successful external interactions, the bandwidth-limit
command returns success, stores the new limits as later returned by
get_bandwidth_limit, restores the prior reachability; when the daemon was
stopped it performs no spawn and only the limit fields change; when it
was running it performs exactly one new spawn whose arguments carry the
new limits, and the stop completes (daemon down, limits still old) before
the mutation. -/
theorem setLimitsCommand_spec (env : DaemonEnv) (save : Except String Unit)
    (no np : Nat) (s : ClientState) (child : Nat) (p : String)
    (hpath : env.aria2Path = some p)
    (hspawn : env.spawnResult = Except.ok child)
    (hpoll : env.polls.any id = true)
    (hsave : save = Except.ok ()) :
    (setLimitsCommand env save no np s).1 = Except.ok ()
    ∧ (setLimitsCommand env save no np s).2.overall = no
    ∧ (setLimitsCommand env save no np s).2.perDownload = np
    ∧ get_bandwidth_limit (setLimitsCommand env save no np s).2 = (no, np)
    ∧ (setLimitsCommand env save no np s).2.reachable = s.reachable
    ∧ (s.reachable = false →
        (setLimitsCommand env save no np s).2 = set_bandwidth_limit no np s)
    ∧ (s.reachable = true →
        (setLimitsCommand env save no np s).2.spawns = s.spawns + 1
        ∧ (setLimitsCommand env save no np s).2.lastSpawnArgs = some (no, np))
    ∧ (s.reachable = true →
        (stop_daemon env s).2.reachable = false
        ∧ (stop_daemon env s).2.overall = s.overall
        ∧ (stop_daemon env s).2.perDownload = s.perDownload) := by
  subst hsave
  obtain ⟨reach, proc, ov, pd, sp, la⟩ := s
  cases reach <;> cases proc <;>
    simp [setLimitsCommand, is_running, stop_daemon, start_daemon,
      set_bandwidth_limit, get_bandwidth_limit, hpath, hspawn, hpoll]

theorem setLimitsCommand_spec_witness :
    (setLimitsCommand happyEnv (Except.ok ()) 5 7 runningState).1 = Except.ok ()
    ∧ (setLimitsCommand happyEnv (Except.ok ()) 5 7 runningState).2.spawns =
        runningState.spawns + 1
    ∧ (setLimitsCommand happyEnv (Except.ok ()) 5 7 stoppedState).2 =
        set_bandwidth_limit 5 7 stoppedState := by
  obtain ⟨h1, _, _, _, _, _, h7, _⟩ :=
    setLimitsCommand_spec happyEnv (Except.ok ()) 5 7 runningState 2 "aria2c"
      rfl rfl rfl rfl
  obtain ⟨_, _, _, _, _, h6, _, _⟩ :=
    setLimitsCommand_spec happyEnv (Except.ok ()) 5 7 stoppedState 2 "aria2c"
      rfl rfl rfl rfl
  exact ⟨h1, (h7 rfl).1, h6 rfl⟩

/-- C1 counterexample: starting from a running daemon with limits 0 and 0
and changing them to 5 and 7, the state observable at the guard release
between the stop block and the restart block is neither the pre-change
running-with-old-limits state nor the post-change
running-with-new-limits state. -/
theorem setLimits_atomicity_cex :
    ¬ (∀ g ∈ setLimitsGapStates happyEnv runningState,
        g = runningState
        ∨ g = (setLimitsCommand happyEnv (Except.ok ()) 5 7 runningState).2) := by
  decide

/-- C1 amended: the guard is released between the check, stop and
mutate-restart blocks; every state observable at a release point is
either the pre-state or, when the daemon was running, the intermediate
state with the daemon down, no tracked handle, the old limits and no new
spawn. -/
theorem setLimits_gap_observable (env : DaemonEnv) (s : ClientState)
    (g : ClientState) (hg : g ∈ setLimitsGapStates env s) :
    g = s
    ∨ (s.reachable = true ∧ g.reachable = false ∧ g.process = none
        ∧ g.overall = s.overall ∧ g.perDownload = s.perDownload
        ∧ g.spawns = s.spawns) := by
  obtain ⟨reach, proc, ov, pd, sp, la⟩ := s
  cases reach with
  | false =>
    left
    simp [setLimitsGapStates, is_running] at hg
    simpa using hg
  | true =>
    cases proc <;>
      · simp [setLimitsGapStates, is_running, stop_daemon] at hg
        rcases hg with rfl | rfl
        · left; rfl
        · right; simp

theorem setLimits_gap_observable_witness :
    (stop_daemon happyEnv runningState).2 = runningState
    ∨ (runningState.reachable = true
        ∧ (stop_daemon happyEnv runningState).2.reachable = false
        ∧ (stop_daemon happyEnv runningState).2.process = none
        ∧ (stop_daemon happyEnv runningState).2.overall = runningState.overall
        ∧ (stop_daemon happyEnv runningState).2.perDownload = runningState.perDownload
        ∧ (stop_daemon happyEnv runningState).2.spawns = runningState.spawns) :=
  setLimits_gap_observable happyEnv runningState
    (stop_daemon happyEnv runningState).2 (by decide)

/-- C10: after adding an item the history holds at most 100 entries, the
new item sits at index 0, and the kept entries are exactly the first 100
of the new item followed by the previous entries, dropping the oldest. -/
theorem add_history_item_spec (history : DownloadHistory)
    (item : DownloadHistoryItem) :
    (add_history_item history item).items.length ≤ 100
    ∧ (add_history_item history item).items.head? = some item
    ∧ (add_history_item history item).items = (item :: history.items).take 100 := by
  have heq : (add_history_item history item).items =
      (item :: history.items).take 100 := by
    unfold add_history_item
    by_cases h : (item :: history.items).length > 100
    · simp only [h, if_true]
    · simp only [h, if_false]
      exact (List.take_of_length_le (Nat.le_of_not_lt h)).symm
  refine ⟨?_, ?_, heq⟩
  · rw [heq, List.length_take]
    exact min_le_left _ _
  · rw [heq, show (100 : Nat) = 99 + 1 from rfl, List.take_succ_cons]
    rfl
